import Mathlib

set_option maxRecDepth 100000

/-!
Verification development for the daily-news aggregation pipeline
(`pull_news.py`, `augment_news_youtube_only.py`, `scripts/generate_ai_daily.py`).

Conventions of the shallow embedding:
* machine time is modelled as `Int` seconds since the Unix epoch (UTC);
  calendar dates are `Int` days since the Unix epoch;
* Python strings are modelled as `String` / `List Char`; `str.lower` is
  per-character `Char.toLower`, `str.strip` trims ASCII whitespace;
* fallible parsing returns `Option`; the external LLM call is an explicit
  `Except String String` argument; the current clock is an explicit argument;
* `hashlib.sha256(...).hexdigest()` is implemented concretely (FIPS 180-4)
  over UTF-8 bytes, all 32-bit words as `Nat` reduced modulo `2 ^ 32`.
-/

namespace DailyNews

/-! ## SHA-256 (model of hashlib.sha256(...).hexdigest()) -/

/-- Modulus for 32-bit words. -/
def M32 : Nat := 4294967296

/-- Right rotation of a 32-bit word. -/
def rotr32 (x n : Nat) : Nat := ((x >>> n) ||| (x <<< (32 - n))) % M32

/-- The 64 SHA-256 round constants (FIPS 180-4, written in decimal). -/
def shaK : List Nat := [
  1116352408, 1899447441, 3049323471, 3921009573, 961987163, 1508970993,
  2453635748, 2870763221, 3624381080, 310598401, 607225278, 1426881987,
  1925078388, 2162078206, 2614888103, 3248222580, 3835390401, 4022224774,
  264347078, 604807628, 770255983, 1249150122, 1555081692, 1996064986,
  2554220882, 2821834349, 2952996808, 3210313671, 3336571891, 3584528711,
  113926993, 338241895, 666307205, 773529912, 1294757372, 1396182291,
  1695183700, 1986661051, 2177026350, 2456956037, 2730485921, 2820302411,
  3259730800, 3345764771, 3516065817, 3600352804, 4094571909, 275423344,
  430227734, 506948616, 659060556, 883997877, 958139571, 1322822218,
  1537002063, 1747873779, 1955562222, 2024104815, 2227730452, 2361852424,
  2428436474, 2756734187, 3204031479, 3329325298]

/-- The SHA-256 initial hash state (FIPS 180-4, written in decimal). -/
def shaH0 : List Nat :=
  [1779033703, 3144134277, 1013904242, 2773480762, 1359893119, 2600822924, 528734635, 1541459225]

/-- SHA-256 padding: append 0x80, zeros, and the 64-bit big-endian bit length. -/
def padMsg (msg : List Nat) : List Nat :=
  let len := msg.length
  let bitLen := len * 8
  let padZeros := (55 + 64 - len % 64) % 64
  msg ++ [0x80] ++ List.replicate padZeros 0 ++
    [(bitLen >>> 56) % 256, (bitLen >>> 48) % 256, (bitLen >>> 40) % 256, (bitLen >>> 32) % 256,
     (bitLen >>> 24) % 256, (bitLen >>> 16) % 256, (bitLen >>> 8) % 256, bitLen % 256]

/-- Group bytes into big-endian 32-bit words. -/
def bytesToWords : List Nat → List Nat
  | b0 :: b1 :: b2 :: b3 :: rest => (((b0 * 256 + b1) * 256 + b2) * 256 + b3) :: bytesToWords rest
  | _ => []

/-- Message-schedule extension of the 16 block words to 64 words. -/
def extendW (w : List Nat) : List Nat :=
  (List.range 48).foldl (fun acc i =>
    let w15 := acc.getD (i + 1) 0
    let w2 := acc.getD (i + 14) 0
    let s0 := (rotr32 w15 7) ^^^ (rotr32 w15 18) ^^^ (w15 >>> 3)
    let s1 := (rotr32 w2 17) ^^^ (rotr32 w2 19) ^^^ (w2 >>> 10)
    acc ++ [(acc.getD i 0 + s0 + acc.getD (i + 9) 0 + s1) % M32]) w

/-- One SHA-256 compression round over a 64-byte block. -/
def compressBlock (h : List Nat) (block : List Nat) : List Nat :=
  let w := extendW (bytesToWords block)
  let fin := (List.range 64).foldl (fun (st : Nat × Nat × Nat × Nat × Nat × Nat × Nat × Nat) i =>
    let (a, b, c, d, e, f, g, hh) := st
    let s1 := (rotr32 e 6) ^^^ (rotr32 e 11) ^^^ (rotr32 e 25)
    let ch := (e &&& f) ^^^ ((M32 - 1 - e) &&& g)
    let t1 := (hh + s1 + ch + shaK.getD i 0 + w.getD i 0) % M32
    let s0 := (rotr32 a 2) ^^^ (rotr32 a 13) ^^^ (rotr32 a 22)
    let mj := (a &&& b) ^^^ (a &&& c) ^^^ (b &&& c)
    let t2 := (s0 + mj) % M32
    ((t1 + t2) % M32, a, b, c, (d + t1) % M32, e, f, g))
    (h.getD 0 0, h.getD 1 0, h.getD 2 0, h.getD 3 0, h.getD 4 0, h.getD 5 0, h.getD 6 0, h.getD 7 0)
  match fin with
  | (a, b, c, d, e, f, g, hh) =>
    [(h.getD 0 0 + a) % M32, (h.getD 1 0 + b) % M32, (h.getD 2 0 + c) % M32, (h.getD 3 0 + d) % M32,
     (h.getD 4 0 + e) % M32, (h.getD 5 0 + f) % M32, (h.getD 6 0 + g) % M32, (h.getD 7 0 + hh) % M32]

/-- Fold the compression function over all 64-byte blocks; the fuel is the
block count of the (already padded) message, so recursion is structural. -/
def processBlocks : Nat → List Nat → List Nat → List Nat
  | 0, h, _ => h
  | fuel + 1, h, bytes =>
    if bytes.isEmpty then h
    else processBlocks fuel (compressBlock h (bytes.take 64)) (bytes.drop 64)

/-- Lowercase hex digit for a nibble. -/
def hexDigit (n : Nat) : Char :=
  if n < 10 then Char.ofNat (48 + n) else Char.ofNat (87 + n)

/-- Eight lowercase hex digits of a 32-bit word, most significant first. -/
def hex8 (n : Nat) : List Char :=
  [hexDigit ((n >>> 28) % 16), hexDigit ((n >>> 24) % 16), hexDigit ((n >>> 20) % 16),
   hexDigit ((n >>> 16) % 16), hexDigit ((n >>> 12) % 16), hexDigit ((n >>> 8) % 16),
   hexDigit ((n >>> 4) % 16), hexDigit (n % 16)]

/-- SHA-256 hex digest of a byte list, as produced by hashlib hexdigest. -/
def sha256hexBytes (msg : List Nat) : String :=
  let p := padMsg msg
  ⟨(processBlocks (p.length / 64) shaH0 p).flatMap hex8⟩

/-- UTF-8 encoding of one character. -/
def utf8Char (c : Char) : List Nat :=
  let n := c.toNat
  if n < 128 then [n]
  else if n < 2048 then [192 + n / 64, 128 + n % 64]
  else if n < 65536 then [224 + n / 4096, 128 + (n / 64) % 64, 128 + n % 64]
  else [240 + n / 262144, 128 + (n / 4096) % 64, 128 + (n / 64) % 64, 128 + n % 64]

/-- UTF-8 encoding of a character list. -/
def utf8Bytes (s : List Char) : List Nat := s.flatMap utf8Char

/-! ## String helpers (models of the Python string operations used) -/

/-- Model of the Python substring test `needle in hay` (empty needle matches). -/
def containsSub : List Char → List Char → Bool
  | n, [] => n.isEmpty
  | n, c :: r => n.isPrefixOf (c :: r) || containsSub n r

/-- Model of `str.lower` (per-character lowercasing). -/
def lowerChars (s : List Char) : List Char := s.map Char.toLower

/-- ASCII whitespace as stripped by `str.strip`. -/
def isSpaceChar (c : Char) : Bool := c = ' ' || c = '\t' || c = '\n' || c = '\r'

/-- Model of `str.strip`. -/
def trimChars (s : List Char) : List Char :=
  ((s.dropWhile isSpaceChar).reverse.dropWhile isSpaceChar).reverse

/-- Model of `" ".join` on a list of strings. -/
def joinSpace : List (List Char) → List Char
  | [] => []
  | [s] => s
  | s :: s2 :: rest => s ++ ' ' :: joinSpace (s2 :: rest)

/-- One fuel-indexed step list of `str.replace`: wherever `target` (nonempty)
occurs, emit `repl` and continue after it. Fuel `l.length` is always enough
since every step consumes at least one character. -/
def replaceAllAux (target repl : List Char) : Nat → List Char → List Char
  | _, [] => []
  | 0, l => l
  | fuel + 1, c :: r =>
    if target.isPrefixOf (c :: r) then
      repl ++ replaceAllAux target repl fuel ((c :: r).drop target.length)
    else
      c :: replaceAllAux target repl fuel r

/-- Model of the Python `str.replace(target, repl)` (all occurrences,
left to right, nonempty target). -/
def replaceAll (s target repl : List Char) : List Char :=
  if target.isEmpty then s else replaceAllAux target repl s.length s

/-- String-level version of `replaceAll`. -/
def replaceAllS (s target repl : String) : String :=
  ⟨replaceAll s.data target.data repl.data⟩

/-! ## Calendar model

Seconds since the Unix epoch (`Int`), proleptic Gregorian calendar,
standard civil-from-days / days-from-civil conversions. -/

/-- Day count since 1970-01-01 of the civil date `y-m-d` (year at least 1). -/
def daysFromCivil (y m d : Nat) : Int :=
  let y2 := if m ≤ 2 then y - 1 else y
  let era := y2 / 400
  let yoe := y2 % 400
  let mp := (m + 9) % 12
  let doy := (153 * mp + 2) / 5 + d - 1
  let doe := yoe * 365 + yoe / 4 - yoe / 100 + doy
  ((era * 146097 + doe : Nat) : Int) - 719468

/-- Civil date `(y, m, d)` of a day count since 1970-01-01 (valid for dates
of year at least 1). -/
def civilFromDays (days : Int) : Nat × Nat × Nat :=
  let z := (days + 719468).toNat
  let era := z / 146097
  let doe := z % 146097
  let yoe := (doe - doe / 1460 + doe / 36524 - doe / 146096) / 365
  let y2 := yoe + era * 400
  let doy := doe - (365 * yoe + yoe / 4 - yoe / 100)
  let mp := (5 * doy + 2) / 153
  let d := doy - (153 * mp + 2) / 5 + 1
  let m := if mp < 10 then mp + 3 else mp - 9
  (if m ≤ 2 then y2 + 1 else y2, m, d)

/-- Decimal digit character. -/
def digitChar (n : Nat) : Char := Char.ofNat (48 + n % 10)

/-- Two-digit zero-padded decimal. -/
def pad2 (n : Nat) : List Char := [digitChar (n / 10), digitChar n]

/-- Four-digit zero-padded decimal. -/
def pad4 (n : Nat) : List Char := [digitChar (n / 1000), digitChar (n / 100), digitChar (n / 10), digitChar n]

/-- Model of `datetime.isoformat()` on a UTC-aware, whole-second datetime:
`YYYY-MM-DDTHH:MM:SS+00:00`. -/
def isoformatUTC (t : Int) : String :=
  let days := Int.fdiv t 86400
  let sod := (Int.emod t 86400).toNat
  let c := civilFromDays days
  ⟨pad4 c.1 ++ '-' :: pad2 c.2.1 ++ '-' :: pad2 c.2.2 ++
   'T' :: pad2 (sod / 3600) ++ ':' :: pad2 ((sod / 60) % 60) ++ ':' :: pad2 (sod % 60) ++
   ("+00:00").data⟩

/-- Numeric value of a decimal digit character. -/
def dv (c : Char) : Nat := c.toNat - 48

/-- Decimal digit test. -/
def isDig (c : Char) : Bool := decide (48 ≤ c.toNat) && decide (c.toNat ≤ 57)

/-- Length of February and friends: days in a month of the proleptic
Gregorian calendar. -/
def daysInMonth (y m : Nat) : Nat :=
  if m = 2 then (if y % 4 = 0 && (y % 100 ≠ 0 || y % 400 = 0) then 29 else 28)
  else if m = 4 || m = 6 || m = 9 || m = 11 then 30
  else 31

/-- Epoch seconds of a civil date-time (no offset applied). -/
def epochOf (y mo d h mi s : Nat) : Int :=
  daysFromCivil y mo d * 86400 + (h * 3600 + mi * 60 + s : Nat)

/-- Offset suffix of an ISO datetime: empty (naive, interpreted as UTC by the
UTC-running workflow) or `+HH:MM` / `-HH:MM`. Returns the signed offset in
seconds. -/
def parseIsoOffset : List Char → Option Int
  | [] => some 0
  | sign :: h1 :: h2 :: ':' :: m1 :: m2 :: [] =>
    if (sign = '+' || sign = '-') && isDig h1 && isDig h2 && isDig m1 && isDig m2 then
      let oh := dv h1 * 10 + dv h2
      let om := dv m1 * 10 + dv m2
      if oh ≤ 23 && om ≤ 59 then
        some (if sign = '-' then -((oh * 3600 + om * 60 : Nat) : Int) else ((oh * 3600 + om * 60 : Nat) : Int))
      else none
    else none
  | _ => none

/-- Fractional seconds (one to six digits, truncated by the whole-second
model), followed by the offset. -/
def parseIsoFrac (y mo d h mi s : Nat) : List Char → Option Int
  | '.' :: rest =>
    let digs := rest.takeWhile isDig
    if 1 ≤ digs.length && digs.length ≤ 6 then
      (parseIsoOffset (rest.dropWhile isDig)).map (fun off => epochOf y mo d h mi s - off)
    else none
  | rest => (parseIsoOffset rest).map (fun off => epochOf y mo d h mi s - off)

/-- Optional seconds component, then fraction and offset. -/
def parseIsoSec (y mo d h mi : Nat) : List Char → Option Int
  | ':' :: s1 :: s2 :: rest =>
    if isDig s1 && isDig s2 && dv s1 * 10 + dv s2 ≤ 59 then
      parseIsoFrac y mo d h mi (dv s1 * 10 + dv s2) rest
    else none
  | rest => parseIsoFrac y mo d h mi 0 rest

/-- Time part `HH:MM[...]` after the date separator. -/
def parseIsoTime (y mo d : Nat) : List Char → Option Int
  | h1 :: h2 :: ':' :: m1 :: m2 :: rest =>
    if isDig h1 && isDig h2 && isDig m1 && isDig m2 then
      let h := dv h1 * 10 + dv h2
      let mi := dv m1 * 10 + dv m2
      if h ≤ 23 && mi ≤ 59 then parseIsoSec y mo d h mi rest else none
    else none
  | _ => none

/-- Model of `datetime.fromisoformat` on the shapes this pipeline can feed
it: `YYYY-MM-DD[{T, }HH:MM[:SS[.ffffff]][{+,-}HH:MM]]`, field ranges checked
as Python does, result in UTC epoch seconds (naive values read as UTC,
matching the UTC runner). -/
def fromisoChars : List Char → Option Int
  | y1 :: y2 :: y3 :: y4 :: '-' :: m1 :: m2 :: '-' :: d1 :: d2 :: rest =>
    if isDig y1 && isDig y2 && isDig y3 && isDig y4 && isDig m1 && isDig m2 && isDig d1 && isDig d2 then
      let y := ((dv y1 * 10 + dv y2) * 10 + dv y3) * 10 + dv y4
      let mo := dv m1 * 10 + dv m2
      let d := dv d1 * 10 + dv d2
      if 1 ≤ y && 1 ≤ mo && mo ≤ 12 && 1 ≤ d && d ≤ daysInMonth y mo then
        match rest with
        | [] => some (epochOf y mo d 0 0 0)
        | sep :: rest2 =>
          if sep = 'T' || sep = ' ' then parseIsoTime y mo d rest2 else none
      else none
    else none
  | _ => none

/-- String-level `datetime.fromisoformat`. -/
def fromisoformat (s : String) : Option Int := fromisoChars s.data

/-! ## augment_news_youtube_only.py: helpers and data model -/

/-- Model of `now_utc_iso` / the tail of `parse_iso`: format in UTC and
replace the `+00:00` suffix by `Z`. -/
def isoZ (t : Int) : String := replaceAllS (isoformatUTC t) ("+00:00") ("Z")

/-- Model of `parse_iso` (augment_news_youtube_only.py line 104): replace `Z`
by `+00:00`, parse; on any parse failure substitute the current UTC time;
re-serialize in UTC with a `Z` suffix. The current clock is the explicit
argument `now`. -/
def parse_iso (now : Int) (dt_str : String) : String :=
  match fromisoformat (replaceAllS dt_str ("Z") ("+00:00")) with
  | some t => isoZ t
  | none => isoZ now

/-- Value of `datetime.min.replace(tzinfo=timezone.utc)`: 0001-01-01T00:00:00Z
in epoch seconds. -/
def datetimeMin : Int := -62135596800

/-- An item record, with the fields of the feed dictionaries that the
modelled code reads (absent keys are read through `.get(k, "")`, so absence
is represented by the empty string). -/
structure Item where
  title : String := ""
  url : String := ""
  publisher : String := ""
  category : String := ""
  published : String := ""
  type : String := ""
  description : String := ""
  summary : String := ""
deriving DecidableEq, Repr

/-- Model of `published_dt` (line 111): parse the item's `published` field,
falling back to `datetime.min` (UTC) on failure. -/
def published_dt (it : Item) : Int :=
  match fromisoformat (replaceAllS it.published ("Z") ("+00:00")) with
  | some t => t
  | none => datetimeMin

/-! ## Classifier (is_ptd_relevant and its keyword tables) -/

/-- The positive PTD keyword table `KEYWORDS` (lines 45-70). -/
def KEYWORDS : List String := [
  "grid", "power", "electricity", "substation", "transformer", "switchgear",
  "hvdc", "high voltage", "transmission", "distribution", "interconnector",
  "tso", "dso", "utility", "utilities", "iso", "rto",
  "cable", "subsea cable", "intertie",
  "renewable", "renewables", "solar", "pv", "wind", "offshore wind",
  "hydrogen", "electrolyzer", "geothermal",
  "battery", "batteries", "energy storage", "storage", "bess",
  "data center", "datacenter", "cloud", "hyperscale",
  "ai", "artificial intelligence", "genai", "gpu", "chips",
  "semiconductor", "nvidia", "amd", "intel",
  "oil", "gas", "lng", "pipeline", "refinery", "upstream", "downstream",
  "rare earth", "lithium", "cobalt", "nickel", "graphite", "copper",
  "ppa", "cfd", "capacity market", "tariff", "auction"]

/-- The negative keyword table `NEGATIVE_KEYWORDS` (lines 74-86). -/
def NEGATIVE_KEYWORDS : List String := [
  "election", "campaign", "ballot", "polls", "primary", "debate",
  "democrat", "democratic", "republican", "gop", "senate", "congress", "parliament",
  "president", "prime minister", "governor", "mayor", "white house",
  "aoc", "bernie", "sanders", "trump", "biden", "harris", "mamdani",
  "zohra", "zohran", "nyc",
  "celebrity", "royal", "oscars", "movie", "actor", "actress",
  "murder", "shooting", "stabbed", "kidnapped",
  "earthquake", "wildfire", "fire", "hostage"]

/-- Strictness threshold for YouTube items (line 89). -/
def MIN_POSITIVE_HITS_FOR_YOUTUBE : Nat := 1

/-- Model of the positive-hit counter (lines 174-180): number of `KEYWORDS`
entries occurring as substrings of the lowercased text. -/
def count_positive_hits (text : List Char) : Nat :=
  (KEYWORDS.filter (fun k => containsSub k.data (lowerChars text))).length

/-- Model of the negative test (lines 182-184): some `NEGATIVE_KEYWORDS`
entry occurs as a substring of the lowercased text. -/
def has_negative (text : List Char) : Bool :=
  NEGATIVE_KEYWORDS.any (fun n => containsSub n.data (lowerChars text))

/-- Model of `is_ptd_relevant` (lines 186-206): join the fields, reject an
empty blob, reject on any negative keyword, then require at least
`MIN_POSITIVE_HITS_FOR_YOUTUBE` (strict) or one (non-strict) positive hit. -/
def is_ptd_relevant (title desc category publisher url : String) (strict : Bool) : Bool :=
  let blob := trimChars (joinSpace [title.data, desc.data, category.data, publisher.data, url.data])
  if blob.isEmpty then false
  else if has_negative blob then false
  else
    let hits := count_positive_hits blob
    if strict then decide (hits ≥ MIN_POSITIVE_HITS_FOR_YOUTUBE) else decide (hits ≥ 1)

/-! ## Archive pipeline of main (lines 460-533) -/

/-- The YouTube publisher set `YT_PUBLISHERS` (line 472). -/
def YT_PUBLISHERS : List String := ["CNN", "Reuters", "The Wall Street Journal", "Financial Times"]

/-- Model of `is_youtube_item` (lines 474-480). -/
def is_youtube_item (it : Item) : Bool :=
  it.type = "video" && YT_PUBLISHERS.contains it.publisher &&
    containsSub ("youtube.com").data it.url.data

/-- Model of `keep_item` (lines 482-490): YouTube items must pass the strict
classifier (with `desc = it.get("description", "") or ""`); everything else
is kept. -/
def keep_item (it : Item) : Bool :=
  if is_youtube_item it then
    is_ptd_relevant it.title it.description ("Video") it.publisher it.url true
  else true

/-- Descending-recency order used by `sort(key=published_dt, reverse=True)`. -/
def newestFirst (a b : Item) : Prop := published_dt b ≤ published_dt a

instance : DecidableRel newestFirst :=
  fun a b => Int.decLe (published_dt b) (published_dt a)

/-- Model of `list.sort(key=published_dt, reverse=True)`: Python's sort is
stable, so any stable sort computes the same list; insertion sort is stable
for the non-strict order `newestFirst`. -/
def sortNewestFirst (l : List Item) : List Item := l.insertionSort newestFirst

/-- The retention filter of main (lines 524-526): keep items whose
`published_dt` is at or after `now` minus 365 days. -/
def retentionFilter (now : Int) (l : List Item) : List Item :=
  l.filter (fun it => decide (published_dt it ≥ now - 365 * 86400))

/-- Model of the archive update performed by one `main` run (lines 460-533):
purge stored political YouTube items (`keep_item`), extend with the freshly
fetched (already URL-deduplicated) items, apply the 365-day retention
filter, and sort newest first. The fetch result is the explicit parameter
`new_items`; a failed or empty fetch is `new_items = []`. -/
def runArchive (now : Int) (archive_items new_items : List Item) : List Item :=
  let kept := archive_items.filter keep_item
  let updated := kept ++ new_items
  sortNewestFirst (retentionFilter now updated)

/-! ## Fingerprint cache (compute_fingerprint, lines 141-155)

The canonical encoding is the `json.dumps(..., ensure_ascii=False,
separators=(",", ":"), sort_keys=True)` serialization: object keys in sorted
order (`category < published < publisher < title < type < url`, and
`items < label`), no whitespace, strings escaped as json.dumps does. -/

/-- The stable fields that enter the fingerprint, in the shape of one entry
of the `compact` list. -/
structure CompactItem where
  title : String
  publisher : String
  category : String
  published : String
  type : String
  url : String
deriving DecidableEq, Repr

/-- Projection of an item to its stable fields (lines 146-153). -/
def stable_fields (it : Item) : CompactItem :=
  ⟨it.title, it.publisher, it.category, it.published, it.type, it.url⟩

/-- Escape of one character as performed by `json.dumps` with
`ensure_ascii=False`: quote, backslash, the named control escapes, and
`\u00XX` for the remaining control characters; all else verbatim. -/
def escChar (c : Char) : List Char :=
  if c = '"' then ['\\', '"']
  else if c = '\\' then ['\\', '\\']
  else if c = '\n' then ['\\', 'n']
  else if c = '\r' then ['\\', 'r']
  else if c = '\t' then ['\\', 't']
  else if c.toNat = 8 then ['\\', 'b']
  else if c.toNat = 12 then ['\\', 'f']
  else if c.toNat < 32 then ['\\', 'u', '0', '0', hexDigit (c.toNat / 16), hexDigit (c.toNat % 16)]
  else [c]

/-- Escape of a character list. -/
def escStr (s : List Char) : List Char := s.flatMap escChar

/-- A JSON string literal. -/
def jstr (s : String) : List Char := '"' :: escStr s.data ++ ['"']

/-- Canonical encoding of one compact entry (sorted keys, no whitespace). -/
def encodeCompact (c : CompactItem) : List Char :=
  ("\x7b\"category\":").data ++ jstr c.category ++
  (",\"published\":").data ++ jstr c.published ++
  (",\"publisher\":").data ++ jstr c.publisher ++
  (",\"title\":").data ++ jstr c.title ++
  (",\"type\":").data ++ jstr c.type ++
  (",\"url\":").data ++ jstr c.url ++ ("\x7d").data

/-- Comma-separated encoding of the compact list. -/
def encodeCompactList : List CompactItem → List Char
  | [] => []
  | [c] => encodeCompact c
  | c :: c2 :: rest => encodeCompact c ++ ',' :: encodeCompactList (c2 :: rest)

/-- The full canonical pre-image string of `compute_fingerprint`:
`json.dumps({"label": label, "items": compact}, ...)` with sorted keys. -/
def fingerprint_raw (items : List Item) (label : String) : List Char :=
  ("\x7b\"items\":[").data ++ encodeCompactList ((items.take 120).map stable_fields) ++
  ("],\"label\":").data ++ jstr label ++ ("\x7d").data

/-- Model of `compute_fingerprint` (lines 141-155) with the default
`max_items = 120`: SHA-256 hex digest of the UTF-8 canonical encoding of the
label and the stable fields of the first 120 items. -/
def compute_fingerprint (items : List Item) (label : String) : String :=
  sha256hexBytes (utf8Bytes (fingerprint_raw items label))

/-! ## Brief artifacts (write_stub and generate_brief_file, lines 361-402) -/

/-- A brief artifact document `{updated_at, label, fingerprint, summary_md}`. -/
structure Brief where
  updated_at : String
  label : String
  fingerprint : String
  summary_md : String
deriving DecidableEq, Repr

/-- Model of `write_stub` (lines 361-369): the stub document it saves. -/
def write_stub (now label reason : String) : Brief :=
  { updated_at := now, label := label, fingerprint := ("stub"),
    summary_md := ("• Not available yet.\n\nReason: ") ++ reason }

/-- The tail of `generate_brief_file` after the fingerprint check: stub when
the credential is missing, a real brief on generator success, a stub carrying
the error text on generator failure. -/
def brief_after_check (key_present : Bool) (gen : Except String String)
    (now fp label : String) : Brief × Bool :=
  if !key_present then
    (write_stub now label ("OPENAI_API_KEY is not set in Actions secrets."), false)
  else
    match gen with
    | .ok summary_md =>
      ({ updated_at := now, label := label, fingerprint := fp, summary_md := summary_md }, true)
    | .error e => (write_stub now label (("Brief generation failed: ") ++ e), false)

/-- Model of `generate_brief_file` (lines 371-402). Effects are explicit:
`key_present` is whether the OPENAI_API_KEY env var is set, `gen` the outcome
of the external generator call, `now` the clock, `existing` the JSON document
currently stored at `path`. Returns the document stored at `path` after the
call, paired with the function's return value (`true` only on a successful
regeneration). -/
def generate_brief_file (key_present : Bool) (gen : Except String String) (now : String)
    (existing : Option Brief) (label : String) (items : List Item) : Brief × Bool :=
  if items.isEmpty then
    (write_stub now label ("Not enough PTD-relevant items in this time window yet."), false)
  else
    let fp := compute_fingerprint items label
    match existing with
    | some e =>
      if e.fingerprint = fp then (e, false)
      else brief_after_check key_present gen now fp label
    | none => brief_after_check key_present gen now fp label

/-! ## pull_news.py: window selection and timestamp normalization -/

/-- Weekday of a day count since the Unix epoch, Python convention
(`date.weekday()`: Monday = 0 .. Sunday = 6; 1970-01-01 was a Thursday). -/
def weekday (d : Int) : Int := (d + 3) % 7

/-- Model of `included_dates` (pull_news.py lines 138-149), over day counts
since the epoch (the source renders the same set of days as ISO strings):
Saturday keeps Friday and Saturday; Sunday keeps Friday through Sunday;
Monday keeps Friday through Monday; other weekdays keep yesterday and
today. -/
def included_dates (today : Int) : List Int :=
  let wd := weekday today
  if wd = 5 then [today - 1, today]
  else if wd = 6 then [today - 2, today - 1, today]
  else if wd = 0 then [today - 3, today - 2, today - 1, today]
  else [today - 1, today]

/-- Month number of a canonical RFC 2822 month token. -/
def monthNum : List Char → Option Nat
  | ['J', 'a', 'n'] => some 1
  | ['F', 'e', 'b'] => some 2
  | ['M', 'a', 'r'] => some 3
  | ['A', 'p', 'r'] => some 4
  | ['M', 'a', 'y'] => some 5
  | ['J', 'u', 'n'] => some 6
  | ['J', 'u', 'l'] => some 7
  | ['A', 'u', 'g'] => some 8
  | ['S', 'e', 'p'] => some 9
  | ['O', 'c', 't'] => some 10
  | ['N', 'o', 'v'] => some 11
  | ['D', 'e', 'c'] => some 12
  | _ => none

/-- RFC 2822 zone token: numeric `+HHMM` / `-HHMM` offsets and the named
zones that `email.utils` resolves; signed offset in seconds. -/
def rfc2822zone : List Char → Option Int
  | [sign, h1, h2, m1, m2] =>
    if (sign = '+' || sign = '-') && isDig h1 && isDig h2 && isDig m1 && isDig m2 then
      let off := ((dv h1 * 10 + dv h2) * 3600 + (dv m1 * 10 + dv m2) * 60 : Nat)
      some (if sign = '-' then -(off : Int) else (off : Int))
    else none
  | ['G', 'M', 'T'] => some 0
  | ['U', 'T'] => some 0
  | ['U', 'T', 'C'] => some 0
  | ['E', 'S', 'T'] => some (-18000)
  | ['E', 'D', 'T'] => some (-14400)
  | ['C', 'S', 'T'] => some (-21600)
  | ['C', 'D', 'T'] => some (-18000)
  | ['M', 'S', 'T'] => some (-25200)
  | ['M', 'D', 'T'] => some (-21600)
  | ['P', 'S', 'T'] => some (-28800)
  | ['P', 'D', 'T'] => some (-25200)
  | _ => none

/-- Split a character list on spaces. -/
def splitSpaces : List Char → List (List Char)
  | [] => [[]]
  | c :: r =>
    if c = ' ' then [] :: splitSpaces r
    else
      match splitSpaces r with
      | h :: t => (c :: h) :: t
      | [] => [[c]]

/-- Day-of-month token: one or two digits. -/
def rfcDay : List Char → Option Nat
  | [d1] => if isDig d1 then some (dv d1) else none
  | [d1, d2] => if isDig d1 && isDig d2 then some (dv d1 * 10 + dv d2) else none
  | _ => none

/-- Four-digit year token. -/
def rfcYear : List Char → Option Nat
  | [y1, y2, y3, y4] =>
    if isDig y1 && isDig y2 && isDig y3 && isDig y4 then
      some (((dv y1 * 10 + dv y2) * 10 + dv y3) * 10 + dv y4)
    else none
  | _ => none

/-- Time-of-day token `HH:MM[:SS]`. -/
def rfcTime : List Char → Option (Nat × Nat × Nat)
  | [h1, h2, ':', m1, m2] =>
    if isDig h1 && isDig h2 && isDig m1 && isDig m2 then
      some (dv h1 * 10 + dv h2, dv m1 * 10 + dv m2, 0)
    else none
  | [h1, h2, ':', m1, m2, ':', s1, s2] =>
    if isDig h1 && isDig h2 && isDig m1 && isDig m2 && isDig s1 && isDig s2 then
      some (dv h1 * 10 + dv h2, dv m1 * 10 + dv m2, dv s1 * 10 + dv s2)
    else none
  | _ => none

/-- Assemble an RFC 2822 date from its tokens, with the field validation the
datetime constructor performs; a missing zone yields a naive value, read as
UTC by the UTC-running workflow. -/
def rfc2822FromTokens (dayTok monTok yearTok timeTok : List Char) (zoneTok : Option (List Char)) :
    Option Int := do
  let d ← rfcDay dayTok
  let mo ← monthNum monTok
  let y ← rfcYear yearTok
  let (h, mi, s) ← rfcTime timeTok
  let off ← match zoneTok with
    | none => some (0 : Int)
    | some z => rfc2822zone z
  if 1 ≤ y ∧ 1 ≤ d ∧ d ≤ daysInMonth y mo ∧ h ≤ 23 ∧ mi ≤ 59 ∧ s ≤ 59 then
    some (epochOf y mo d h mi s - off)
  else none

/-- Model of `email.utils.parsedate_to_datetime` on the RFC 2822 layout
`[Day, ]DD Mon YYYY HH:MM[:SS] [zone]`; `none` is the raised exception. -/
def rfc2822 (s : List Char) : Option Int :=
  let toks := (splitSpaces s).filter (fun t => !t.isEmpty)
  let toks := match toks with
    | t :: rest => if t.getLast? = some ',' then rest else t :: rest
    | [] => []
  match toks with
  | [dayTok, monTok, yearTok, timeTok] => rfc2822FromTokens dayTok monTok yearTok timeTok none
  | [dayTok, monTok, yearTok, timeTok, zoneTok] =>
    rfc2822FromTokens dayTok monTok yearTok timeTok (some zoneTok)
  | _ => none

/-- Model of `parse_pubdate` (pull_news.py lines 154-160): RFC 2822 parse
re-serialized as a UTC ISO string; the empty string on any parse failure. -/
def parse_pubdate (pub : String) : String :=
  match rfc2822 pub.data with
  | some t => isoformatUTC t
  | none => ""

/-- Model of the guard in pull_news `main` (line 307): an RSS entry whose
`date` field (the `parse_pubdate` output) is empty is skipped, i.e. the item
is dropped from the output. -/
def pull_entry_dropped (pubDate : String) : Bool := parse_pubdate pubDate = ("")

/-! ## scripts/generate_ai_daily.py: item cleaning -/

/-- The fixed tag taxonomy `ALLOWED_TAGS` (lines 21-26). -/
def ALLOWED_TAGS : List String := [
  "Grid", "Transmission", "Substations", "HVDC",
  "AI", "Data Centers", "Chips",
  "Renewables", "Storage", "Oil & Gas", "EPC", "OEM",
  "Permitting", "Interconnection", "Markets", "Policy"]

/-- Model of `sha` (lines 38-40): SHA-256 hex digest of the UTF-8 string. -/
def sha (s : String) : String := sha256hexBytes (utf8Bytes s.data)

/-- Model of `str.strip` at the String level. -/
def stripS (s : String) : String := ⟨trimChars s.data⟩

/-- One model-response item as read back from the generator's JSON: `none`
in a list field stands for a missing key or a non-list value (both are
replaced by `[]` by the cleaning pass). -/
structure RawAIItem where
  title : String := ""
  summary : String := ""
  whyGrid : Option (List String) := none
  whyDataCentersAI : Option (List String) := none
  whyRenewables : Option (List String) := none
  whyOilGas : Option (List String) := none
  confidence : String := "Low"
  tags : Option (List String) := none
deriving DecidableEq, Repr

/-- A cleaned AI-daily item as written to `data/ai_daily.json`. -/
structure CleanAIItem where
  id : String
  published_at : String
  title : String
  summary : String
  whyGrid : List String
  whyDataCentersAI : List String
  whyRenewables : List String
  whyOilGas : List String
  confidence : String
  tags : List String
  source_type : String
deriving DecidableEq, Repr

/-- Cleaning of one raw item (generate_ai_daily.py lines 156-192): skip on
empty (stripped) title or summary, id is the SHA-256 of
`title + "||" + summary`, tags restricted to `ALLOWED_TAGS`, confidence
coerced into the three-valued scale, `source_type` fixed to `PTD_AI`. -/
def clean_one (now : String) (it : RawAIItem) : Option CleanAIItem :=
  let title := stripS it.title
  let summary := stripS it.summary
  if title = ("") || summary = ("") then none
  else some {
    id := sha (title ++ ("||") ++ summary),
    published_at := now,
    title := title,
    summary := summary,
    whyGrid := it.whyGrid.getD [],
    whyDataCentersAI := it.whyDataCentersAI.getD [],
    whyRenewables := it.whyRenewables.getD [],
    whyOilGas := it.whyOilGas.getD [],
    confidence := if ["High", "Medium", "Low"].contains it.confidence then it.confidence else ("Low"),
    tags := (it.tags.getD []).filter (fun t => ALLOWED_TAGS.contains t),
    source_type := ("PTD_AI") }

/-- The cleaning loop over the parsed `items` array (lines 155-192). -/
def clean_ai_items (now : String) (items : List RawAIItem) : List CleanAIItem :=
  items.filterMap (clean_one now)

/-- The `items` array written to `data/ai_daily.json` by `main`: the cleaned
list on a successful, JSON-valid generator response, and the empty stub list
when the credential is missing or the response is not valid JSON. -/
def ai_daily_items (now : String) (response : Option (List RawAIItem)) : List CleanAIItem :=
  match response with
  | some items => clean_ai_items now items
  | none => []

/-! ## Inverse of the canonical fingerprint encoding

A deterministic parser for the encoding produced by `encodeCompact`, used
only to prove that the canonical pre-image determines the encoded stable
fields (injectivity); it is a verification device, not part of the source. -/

/-- Hex digit test for the digits the encoder emits. -/
def isHexLower (c : Char) : Bool :=
  isDig c || (decide (97 ≤ c.toNat) && decide (c.toNat ≤ 102))

/-- Value of a lowercase hex digit. -/
def hvLower (c : Char) : Nat := if c.toNat ≤ 57 then c.toNat - 48 else c.toNat - 87

/-- Prepend a character to the parsed part of a parser result. -/
def consFst (c : Char) : Option (List Char × List Char) → Option (List Char × List Char)
  | some (s, r) => some (c :: s, r)
  | none => none

mutual

/-- Parse the body of a JSON string (after the opening quote) up to its
closing quote, undoing `escChar`. -/
def parseEsc : List Char → Option (List Char × List Char)
  | [] => none
  | c :: r =>
    if c = '"' then some ([], r)
    else if c = '\\' then parseEscSlash r
    else consFst c (parseEsc r)

/-- Parse the character after a backslash escape and continue. -/
def parseEscSlash : List Char → Option (List Char × List Char)
  | [] => none
  | e :: r2 =>
    if e = '"' then consFst '"' (parseEsc r2)
    else if e = '\\' then consFst '\\' (parseEsc r2)
    else if e = 'n' then consFst '\n' (parseEsc r2)
    else if e = 'r' then consFst '\r' (parseEsc r2)
    else if e = 't' then consFst '\t' (parseEsc r2)
    else if e = 'b' then consFst (Char.ofNat 8) (parseEsc r2)
    else if e = 'f' then consFst (Char.ofNat 12) (parseEsc r2)
    else if e = 'u' then parseUHex r2
    else none

/-- Parse the four hex digits of a `\u00XX` escape and continue. -/
def parseUHex : List Char → Option (List Char × List Char)
  | d1 :: d2 :: d3 :: d4 :: r3 =>
    if isHexLower d1 && isHexLower d2 && isHexLower d3 && isHexLower d4 then
      consFst (Char.ofNat (((hvLower d1 * 16 + hvLower d2) * 16 + hvLower d3) * 16 + hvLower d4))
        (parseEsc r3)
    else none
  | _ => none

end

/-- Consume an expected literal prefix. -/
def dropLit : List Char → List Char → Option (List Char)
  | [], l => some l
  | _ :: _, [] => none
  | c :: cs, x :: xs => if c = x then dropLit cs xs else none

/-- Parse a JSON string literal (opening quote, body, closing quote). -/
def parseJStr : List Char → Option (List Char × List Char)
  | '"' :: r => parseEsc r
  | _ => none

/-- Consume a literal key prefix followed by a JSON string literal. -/
def parseField (lit : List Char) (l : List Char) : Option (List Char × List Char) :=
  match dropLit lit l with
  | none => none
  | some l1 => parseJStr l1

/-- Parse the `url` field and closing brace of an `encodeCompact` record. -/
def parseCompactUrl (cat pub pubr ti ty : List Char) (l : List Char) :
    Option (CompactItem × List Char) :=
  match parseField ((",\"url\":").data) l with
  | none => none
  | some (u, l2) =>
    match dropLit (("\x7d").data) l2 with
    | none => none
    | some l3 => some (⟨⟨ti⟩, ⟨pubr⟩, ⟨cat⟩, ⟨pub⟩, ⟨ty⟩, ⟨u⟩⟩, l3)

/-- Parse the `type` field onwards. -/
def parseCompactTy (cat pub pubr ti : List Char) (l : List Char) :
    Option (CompactItem × List Char) :=
  match parseField ((",\"type\":").data) l with
  | none => none
  | some (ty, l2) => parseCompactUrl cat pub pubr ti ty l2

/-- Parse the `title` field onwards. -/
def parseCompactTi (cat pub pubr : List Char) (l : List Char) :
    Option (CompactItem × List Char) :=
  match parseField ((",\"title\":").data) l with
  | none => none
  | some (ti, l2) => parseCompactTy cat pub pubr ti l2

/-- Parse the `publisher` field onwards. -/
def parseCompactPubr (cat pub : List Char) (l : List Char) : Option (CompactItem × List Char) :=
  match parseField ((",\"publisher\":").data) l with
  | none => none
  | some (pubr, l2) => parseCompactTi cat pub pubr l2

/-- Parse the `published` field onwards. -/
def parseCompactPub (cat : List Char) (l : List Char) : Option (CompactItem × List Char) :=
  match parseField ((",\"published\":").data) l with
  | none => none
  | some (pub, l2) => parseCompactPubr cat pub l2

/-- Parse one `encodeCompact` record. -/
def parseCompact (l : List Char) : Option (CompactItem × List Char) :=
  match parseField (("\x7b\"category\":").data) l with
  | none => none
  | some (cat, l2) => parseCompactPub cat l2

/-! ## Concrete data used by witnesses and counterexamples -/

/-- A stale archive item, older than the 365-day retention window of the
runs considered below. -/
def itemOld : Item := { title := "old story", published := "2020-01-01T00:00:00Z" }

/-- A fresh, PTD-relevant, non-YouTube archive item. -/
def itemNew : Item := { title := "Grid HVDC upgrade", published := "2025-10-01T00:00:00Z" }

/-- A reference clock for the concrete runs: 2025-10-09T08:53:20Z. -/
def nowRef : Int := 1760000000

/-- An item published exactly 365 days before `nowRef`. -/
def itemBoundary : Item := { title := "boundary story", published := "2024-10-09T08:53:20Z" }

/-- A copy of `itemNew` differing in one stable field (the title). -/
def itemNewB : Item := { itemNew with title := "Grid HVDC upgrade II" }

/-- A copy of `itemNew` differing only in a field outside the fingerprint's
stable set (the description). -/
def itemNewC : Item := { itemNew with description := "extra notes" }

/-- A raw AI-daily generator item used by the C10 witness. -/
def aiRaw0 : RawAIItem :=
  { title := " a ", summary := "b", confidence := "Wat", tags := some ["Grid", "Nope"] }

/-- The cleaned form of `aiRaw0`. -/
def aiClean0 : CleanAIItem :=
  { id := "23360994fdaa608ee91c88e2901c2e83d5322dc145fafebe06e4d9036d5d1e28",
    published_at := "T", title := "a", summary := "b",
    whyGrid := [], whyDataCentersAI := [], whyRenewables := [], whyOilGas := [],
    confidence := "Low", tags := ["Grid"], source_type := "PTD_AI" }

/-! # Theorems -/

/-- Claim C7: after the retention step of a run with cutoff 365 days, no item
with `now - published > cutoff` survives in the archive, and an item whose
`published` equals `now - cutoff` exactly passes the retention filter (the
boundary is inclusive). -/
theorem retention_boundary (now : Int) (archive new_items l : List Item) (it : Item) :
    (it ∈ runArchive now archive new_items → now - published_dt it ≤ 365 * 86400)
    ∧ (it ∈ l → now - published_dt it = 365 * 86400 → it ∈ retentionFilter now l) := by
  constructor
  · intro h
    simp only [runArchive, sortNewestFirst, List.mem_insertionSort, retentionFilter,
      List.mem_filter, decide_eq_true_eq] at h
    omega
  · intro hl he
    simp only [retentionFilter, List.mem_filter, decide_eq_true_eq]
    exact ⟨hl, by omega⟩

/-- Witness for C7: a fresh item is within the bound after a concrete run,
and an item dated exactly 365 days before the reference clock is retained. -/
theorem retention_boundary_witness :
    (nowRef - published_dt itemNew ≤ 365 * 86400)
    ∧ itemBoundary ∈ retentionFilter nowRef [itemBoundary] :=
  ⟨(retention_boundary nowRef [itemNew] [] [] itemNew).1 (by decide),
   (retention_boundary nowRef [] [] [itemBoundary] itemBoundary).2 (by decide) (by decide)⟩

/-- Claim C8: the workday-rollup window contains exactly Friday+Saturday on a
Saturday, Friday through Sunday on a Sunday, Friday through Monday on a
Monday, and yesterday+today on the other weekdays; so the earliest included
day is 3 back on a Monday, 2 back on a Sunday, 1 back on a Tuesday. -/
theorem workday_rollup (today : Int) :
    (weekday today = 5 → included_dates today = [today - 1, today] ∧ weekday (today - 1) = 4)
    ∧ (weekday today = 6 →
        included_dates today = [today - 2, today - 1, today] ∧ weekday (today - 2) = 4)
    ∧ (weekday today = 0 →
        included_dates today = [today - 3, today - 2, today - 1, today] ∧ weekday (today - 3) = 4)
    ∧ (weekday today = 1 ∨ weekday today = 2 ∨ weekday today = 3 ∨ weekday today = 4 →
        included_dates today = [today - 1, today]) := by
  refine ⟨fun h => ⟨?_, ?_⟩, fun h => ⟨?_, ?_⟩, fun h => ⟨?_, ?_⟩, fun h => ?_⟩
  · simp [included_dates, h]
  · simp only [weekday] at h ⊢; omega
  · simp [included_dates, h]
  · simp only [weekday] at h ⊢; omega
  · simp [included_dates, h]
  · simp only [weekday] at h ⊢; omega
  · rcases h with h | h | h | h <;> simp [included_dates, h]

/-- Witness for C8 on the first epoch week (1970-01-03 was a Saturday). -/
theorem workday_rollup_witness :
    (included_dates 2 = [1, 2] ∧ weekday 1 = 4)
    ∧ (included_dates 3 = [1, 2, 3] ∧ weekday 1 = 4)
    ∧ (included_dates 4 = [1, 2, 3, 4] ∧ weekday 1 = 4)
    ∧ included_dates 5 = [4, 5] :=
  ⟨(workday_rollup 2).1 (by decide), (workday_rollup 3).2.1 (by decide),
   (workday_rollup 4).2.2.1 (by decide), (workday_rollup 5).2.2.2 (Or.inl (by decide))⟩

/-- Counterexample for claim C9: `main` contains no bootstrap seeding — a run
over an empty archive with an empty fetch persists an empty archive, so the
archive is left completely empty, contradicting the claim. -/
theorem bootstrap_missing_cex : runArchive nowRef [] [] = [] := rfl

/-- Amended C9: when both the existing archive and the fresh fetch are empty
the run writes an empty archive; no static bootstrap snapshot exists in the
code. -/
theorem no_bootstrap_empty_run (now : Int) : runArchive now [] [] = [] := rfl

/-- Counterexample for claim C2: the admission policy is not the claimed
hard/broad two-tier rule. A title carrying a domain "hard" term
(`substation`) is admitted on its own, but adding a single negative term
(`election`) rejects it although the positive hit remains — so a hard-term
match does not admit unconditionally; and a title with exactly one broad
positive hit (`tariff`) and no negative hit is admitted, although the claim
requires at least two matches absent a hard term. -/
theorem classifier_cex :
    is_ptd_relevant ("New 500kV substation energized") ("") ("") ("") ("") true = true
    ∧ count_positive_hits (("New 500kV substation energized amid election").data) ≥ 1
    ∧ has_negative (("New 500kV substation energized amid election").data) = true
    ∧ is_ptd_relevant ("New 500kV substation energized amid election") ("") ("") ("") ("") true = false
    ∧ count_positive_hits (("tariff update").data) = 1
    ∧ has_negative (("tariff update").data) = false
    ∧ is_ptd_relevant ("tariff update") ("") ("") ("") ("") false = true := by
  refine ⟨?_, ?_, ?_, ?_, ?_, ?_, ?_⟩ <;> decide

/-- Amended C2: the classifier has a single keyword table and an absolute
negative rule — any negative-term match rejects the text outright regardless
of positive matches; absent negatives (and for a nonempty blob) admission
holds exactly when at least one keyword matches, in strict mode because
`MIN_POSITIVE_HITS_FOR_YOUTUBE = 1` and in non-strict mode by the literal
`hits >= 1` test. -/
theorem classifier_amended (title desc category publisher url : String) (strict : Bool) :
    (has_negative (trimChars (joinSpace [title.data, desc.data, category.data, publisher.data, url.data])) = true →
      is_ptd_relevant title desc category publisher url strict = false)
    ∧ ((trimChars (joinSpace [title.data, desc.data, category.data, publisher.data, url.data])).isEmpty = false →
       has_negative (trimChars (joinSpace [title.data, desc.data, category.data, publisher.data, url.data])) = false →
       (is_ptd_relevant title desc category publisher url strict = true ↔
        1 ≤ count_positive_hits (trimChars (joinSpace [title.data, desc.data, category.data, publisher.data, url.data]))))
    ∧ MIN_POSITIVE_HITS_FOR_YOUTUBE = 1 := by
  refine ⟨?_, ?_, rfl⟩
  · intro hneg
    unfold is_ptd_relevant
    by_cases hempty : (trimChars (joinSpace [title.data, desc.data, category.data, publisher.data, url.data])).isEmpty
    · simp [hempty]
    · simp [hempty, hneg]
  · intro hempty hneg
    unfold is_ptd_relevant
    simp only [hempty, Bool.false_eq_true, if_false, hneg]
    cases strict <;> simp [MIN_POSITIVE_HITS_FOR_YOUTUBE]

/-- Witness for the amended C2: a negative term rejects despite a positive
hit, and one positive hit admits a clean text. -/
theorem classifier_amended_witness :
    is_ptd_relevant ("substation fire at night") ("") ("") ("") ("") true = false
    ∧ (is_ptd_relevant ("tariff update") ("") ("") ("") ("") false = true ↔
       1 ≤ count_positive_hits (trimChars (joinSpace [("tariff update").data, ("").data, ("").data, ("").data, ("").data]))) :=
  ⟨(classifier_amended ("substation fire at night") ("") ("") ("") ("") true).1 (by decide),
   (classifier_amended ("tariff update") ("") ("") ("") ("") false).2.1 (by decide) (by decide)⟩

/-- Counterexample for claim C6: in pull_news the normalizer does not
substitute the current time on an unparseable date — `parse_pubdate` returns
the empty string, and the main loop then drops the entry. -/
theorem pubdate_drop_cex :
    parse_pubdate ("not a date") = ("") ∧ pull_entry_dropped ("not a date") = true :=
  ⟨by decide, by decide⟩

/-- Amended C6: in the YouTube pipeline, `parse_iso` never fails: its output
is always the UTC ISO-8601 serialization (with `Z` suffix) of some instant,
and that instant is the current UTC time whenever the input fails to parse;
in pull_news, by contrast, `parse_pubdate` yields the empty string on a
parse failure and the entry is dropped. -/
theorem parse_iso_total (now : Int) (dt_str : String) :
    ∃ t : Int, parse_iso now dt_str = isoZ t ∧
      (fromisoformat (replaceAllS dt_str ("Z") ("+00:00")) = none → t = now) := by
  unfold parse_iso
  cases h : fromisoformat (replaceAllS dt_str ("Z") ("+00:00")) with
  | some t => exact ⟨t, rfl, by simp [h]⟩
  | none => exact ⟨now, rfl, fun _ => rfl⟩

/-- Witness for the amended C6 at a concrete malformed input. -/
theorem parse_iso_total_witness :
    ∃ t : Int, parse_iso 1700000000 ("garbage") = isoZ t ∧
      (fromisoformat (replaceAllS ("garbage") ("Z") ("+00:00")) = none → t = 1700000000) :=
  parse_iso_total 1700000000 ("garbage")

/-- Claim C10: every item the AI-daily generator writes to the items array
has a non-empty title and summary, a three-valued confidence, tags drawn
from `ALLOWED_TAGS`, an id equal to the SHA-256 hex digest of
`title + "||" + summary`, and source_type `PTD_AI`. -/
theorem ai_daily_invariant (now : String) (response : Option (List RawAIItem)) (c : CleanAIItem)
    (hc : c ∈ ai_daily_items now response) :
    c.title ≠ ("") ∧ c.summary ≠ ("")
    ∧ (c.confidence = ("High") ∨ c.confidence = ("Medium") ∨ c.confidence = ("Low"))
    ∧ (∀ t ∈ c.tags, t ∈ ALLOWED_TAGS)
    ∧ c.id = sha (c.title ++ ("||") ++ c.summary)
    ∧ c.source_type = ("PTD_AI") := by
  cases response with
  | none => simp [ai_daily_items] at hc
  | some items =>
    simp only [ai_daily_items, clean_ai_items, List.mem_filterMap] at hc
    obtain ⟨raw, _, hraw⟩ := hc
    simp only [clean_one] at hraw
    by_cases hg : (decide (stripS raw.title = "") || decide (stripS raw.summary = "")) = true
    · rw [if_pos hg] at hraw
      exact absurd hraw (by simp)
    · rw [if_neg hg] at hraw
      rw [Option.some.injEq] at hraw
      subst hraw
      rw [Bool.or_eq_true, not_or] at hg
      obtain ⟨ht, hs⟩ := hg
      simp only [decide_eq_true_eq] at ht hs
      refine ⟨ht, hs, ?_, ?_, rfl, rfl⟩
      · by_cases hb : (["High", "Medium", "Low"].contains raw.confidence) = true
        · rw [if_pos hb]
          have hm := List.mem_of_elem_eq_true hb
          simpa using hm
        · rw [if_neg hb]
          exact Or.inr (Or.inr rfl)
      · intro t htag
        simp only [List.mem_filter] at htag
        simpa using htag.2

/-- Witness for C10 on a concrete generator response. -/
theorem ai_daily_invariant_witness :
    aiClean0.title ≠ ("") ∧ aiClean0.summary ≠ ("")
    ∧ (aiClean0.confidence = ("High") ∨ aiClean0.confidence = ("Medium") ∨ aiClean0.confidence = ("Low"))
    ∧ (∀ t ∈ aiClean0.tags, t ∈ ALLOWED_TAGS)
    ∧ aiClean0.id = sha (aiClean0.title ++ ("||") ++ aiClean0.summary)
    ∧ aiClean0.source_type = ("PTD_AI") :=
  ai_daily_invariant ("T") (some [aiRaw0]) aiClean0 (by decide)

/-- Counterexample for claim C1: a zero-fetch run does not leave every
archive unchanged — the run still applies the purge and the 365-day
retention filter, and an archive holding one out-of-retention item comes out
empty. -/
theorem zero_fetch_cex :
    runArchive nowRef [itemOld] [] = [] ∧ ([itemOld] : List Item) ≠ [] :=
  ⟨by decide, by decide⟩

/-- Amended C1: merging with an empty fresh-item list is the identity on the
archive — a zero-fetch run returns the archive unchanged in size and content
provided its items pass the purge filter and the 365-day retention cutoff
and it is sorted newest-first (as every archive written by a previous run
is). -/
theorem zero_fetch_amended (now : Int) (archive : List Item)
    (hkeep : ∀ it ∈ archive, keep_item it = true)
    (hret : ∀ it ∈ archive, now - 365 * 86400 ≤ published_dt it)
    (hsort : List.Pairwise newestFirst archive) :
    runArchive now archive [] = archive := by
  simp only [runArchive, retentionFilter, sortNewestFirst]
  rw [List.filter_eq_self.mpr hkeep, List.append_nil,
    List.filter_eq_self.mpr (fun it hit => by simpa using hret it hit)]
  exact List.Sorted.insertionSort_eq hsort

/-- Witness for the amended C1 on a concrete in-retention archive. -/
theorem zero_fetch_amended_witness : runArchive nowRef [itemNew] [] = [itemNew] :=
  zero_fetch_amended nowRef [itemNew] (by decide) (by decide) (by decide)

/-- Claim C5: a brief artifact with the full schema is always produced — an
empty window, a missing credential, or a generator failure each yield a stub
whose fingerprint is `stub` and whose summary carries a human-readable
reason, with `updated_at` and `label` filled in. -/
theorem brief_stub_contract (key_present : Bool) (gen : Except String String)
    (now label : String) (existing : Option Brief) (items : List Item) :
    (items = [] →
      generate_brief_file key_present gen now existing label items =
        (write_stub now label ("Not enough PTD-relevant items in this time window yet."), false))
    ∧ (items ≠ [] →
       (∀ b, existing = some b → b.fingerprint ≠ compute_fingerprint items label) →
       ((key_present = false →
          generate_brief_file key_present gen now existing label items =
            (write_stub now label ("OPENAI_API_KEY is not set in Actions secrets."), false))
        ∧ (∀ err, gen = Except.error err → key_present = true →
            generate_brief_file key_present gen now existing label items =
              (write_stub now label (("Brief generation failed: ") ++ err), false))))
    ∧ (∀ n l r, (write_stub n l r).fingerprint = ("stub")
        ∧ (write_stub n l r).summary_md = ("• Not available yet.\n\nReason: ") ++ r
        ∧ (write_stub n l r).updated_at = n ∧ (write_stub n l r).label = l) := by
  refine ⟨?_, ?_, fun n l r => ⟨rfl, rfl, rfl, rfl⟩⟩
  · intro h
    subst h
    rfl
  · intro hne hfp
    have hitems : items.isEmpty = false := by
      cases items with
      | nil => exact absurd rfl hne
      | cons a l => rfl
    have hcheck : generate_brief_file key_present gen now existing label items =
        brief_after_check key_present gen now (compute_fingerprint items label) label := by
      unfold generate_brief_file
      rw [hitems]
      simp only [Bool.false_eq_true, if_false]
      cases existing with
      | none => rfl
      | some e =>
        show (if e.fingerprint = compute_fingerprint items label then (e, false)
          else brief_after_check key_present gen now (compute_fingerprint items label) label) =
          brief_after_check key_present gen now (compute_fingerprint items label) label
        rw [if_neg (hfp e rfl)]
    constructor
    · intro hk
      rw [hcheck]
      unfold brief_after_check
      rw [hk]
      rfl
    · intro err hg hk
      rw [hcheck, hg]
      unfold brief_after_check
      rw [hk]
      rfl

/-- Witness for C5: the three stub cases at concrete inputs. -/
theorem brief_stub_contract_witness :
    (generate_brief_file true (Except.ok ("S")) ("t1") none ("Daily") [] =
      (write_stub ("t1") ("Daily") ("Not enough PTD-relevant items in this time window yet."), false))
    ∧ (generate_brief_file false (Except.ok ("S")) ("t1") none ("Daily") [itemNew] =
      (write_stub ("t1") ("Daily") ("OPENAI_API_KEY is not set in Actions secrets."), false))
    ∧ (generate_brief_file true (Except.error ("boom")) ("t1") none ("Daily") [itemNew] =
      (write_stub ("t1") ("Daily") (("Brief generation failed: ") ++ ("boom")), false))
    ∧ (write_stub ("t1") ("Daily") ("r")).fingerprint = ("stub") :=
  ⟨(brief_stub_contract true (Except.ok ("S")) ("t1") ("Daily") none []).1 rfl,
   ((brief_stub_contract false (Except.ok ("S")) ("t1") ("Daily") none [itemNew]).2.1
      (by decide) (fun b h => by cases h)).1 rfl,
   ((brief_stub_contract true (Except.error ("boom")) ("t1") ("Daily") none [itemNew]).2.1
      (by decide) (fun b h => by cases h)).2 ("boom") rfl rfl,
   ((brief_stub_contract true (Except.ok ("S")) ("t1") ("Daily") none []).2.2 ("t1") ("Daily") ("r")).1⟩

/-- Helper: a brief returned by `brief_after_check` with return value `true`
carries the fingerprint that was passed in. -/
theorem brief_after_check_fingerprint (k : Bool) (g : Except String String) (now fp label : String)
    (h : (brief_after_check k g now fp label).2 = true) :
    (brief_after_check k g now fp label).1.fingerprint = fp := by
  unfold brief_after_check at h ⊢
  cases k with
  | false => simp at h
  | true =>
    cases g with
    | ok s => rfl
    | error e => simp at h

/-- Helper: a `generate_brief_file` call that returns `true` stored a brief
whose fingerprint is the fingerprint of its item set and label, and its item
list was nonempty. -/
theorem gen_snd_true_fingerprint (k : Bool) (g : Except String String) (now : String)
    (e0 : Option Brief) (label : String) (items : List Item)
    (h : (generate_brief_file k g now e0 label items).2 = true) :
    (generate_brief_file k g now e0 label items).1.fingerprint = compute_fingerprint items label
    ∧ items.isEmpty = false := by
  by_cases hne : items.isEmpty = true
  · rw [generate_brief_file, if_pos hne] at h
    simp at h
  · rw [Bool.not_eq_true] at hne
    refine ⟨?_, hne⟩
    rw [generate_brief_file, hne] at h ⊢
    simp only [Bool.false_eq_true, if_false] at h ⊢
    cases e0 with
    | none => exact brief_after_check_fingerprint k g now _ label h
    | some e =>
      replace h : (if e.fingerprint = compute_fingerprint items label then (e, false)
          else brief_after_check k g now (compute_fingerprint items label) label).2 = true := h
      show (if e.fingerprint = compute_fingerprint items label then (e, false)
          else brief_after_check k g now (compute_fingerprint items label) label).1.fingerprint
          = compute_fingerprint items label
      by_cases hfe : e.fingerprint = compute_fingerprint items label
      · rw [if_pos hfe] at h
        simp at h
      · rw [if_neg hfe] at h ⊢
        exact brief_after_check_fingerprint k g now _ label h

/-- Amended C3: after a run whose generation succeeded, a second run over the
unchanged item set and label finds the stored fingerprint equal to the fresh
one, leaves the stored brief byte-for-byte unchanged (`updated_at` and
`summary_md` included), and performs no regeneration, whatever the clock,
credential or generator state of the second run. -/
theorem brief_idempotent (k1 : Bool) (g1 : Except String String) (now1 : String)
    (e0 : Option Brief) (label : String) (items : List Item)
    (k2 : Bool) (g2 : Except String String) (now2 : String)
    (h : (generate_brief_file k1 g1 now1 e0 label items).2 = true) :
    generate_brief_file k2 g2 now2
      (some (generate_brief_file k1 g1 now1 e0 label items).1) label items
      = ((generate_brief_file k1 g1 now1 e0 label items).1, false) := by
  obtain ⟨hfp, hne⟩ := gen_snd_true_fingerprint k1 g1 now1 e0 label items h
  rw [generate_brief_file, hne]
  simp only [Bool.false_eq_true, if_false]
  exact if_pos hfp

/-- Witness for the amended C3 on a concrete successful first run. -/
theorem brief_idempotent_witness :
    generate_brief_file true (Except.ok ("S")) ("t2")
      (some (generate_brief_file true (Except.ok ("S")) ("t1") none ("Daily") [itemNew]).1)
      ("Daily") [itemNew]
      = ((generate_brief_file true (Except.ok ("S")) ("t1") none ("Daily") [itemNew]).1, false) :=
  brief_idempotent true (Except.ok ("S")) ("t1") none ("Daily") [itemNew]
    true (Except.ok ("S")) ("t2") (by decide)

/-- Counterexample for claim C3: when the first run could only write a stub
(missing credential), the stored fingerprint is `stub`, the freshly computed
fingerprint of the unchanged item set does not match it, and the second run
rewrites the artifact with a new `updated_at` — so an unchanged item set
does not guarantee a byte-identical stored brief. -/
theorem brief_not_idempotent_cex :
    ((generate_brief_file false (Except.error ("e")) ("2025-10-07T00:00:00Z") none ("Daily") [itemNew]).1.updated_at
      = ("2025-10-07T00:00:00Z"))
    ∧ ((generate_brief_file false (Except.error ("e")) ("2025-10-07T00:00:00Z") none ("Daily") [itemNew]).1.fingerprint
      ≠ compute_fingerprint [itemNew] ("Daily"))
    ∧ ((generate_brief_file false (Except.error ("e")) ("2025-10-08T00:00:00Z")
        (some (generate_brief_file false (Except.error ("e")) ("2025-10-07T00:00:00Z") none ("Daily") [itemNew]).1)
        ("Daily") [itemNew]).1.updated_at = ("2025-10-08T00:00:00Z")) :=
  ⟨by decide, by decide, by decide⟩

/-! ## Injectivity of the canonical fingerprint encoding (claim C4) -/

/-- Helper: `hexDigit` emits lowercase hex digits whose value round-trips. -/
theorem hexDigit_facts : ∀ n < 16, hvLower (hexDigit n) = n ∧ isHexLower (hexDigit n) = true := by
  decide

/-- Unfolding equation of `parseEsc` on a cons cell. -/
theorem parseEsc_cons (c : Char) (r : List Char) :
    parseEsc (c :: r) =
      (if c = '"' then some ([], r)
       else if c = '\\' then parseEscSlash r
       else consFst c (parseEsc r)) := by
  rw [parseEsc]

/-- Unfolding equation of `parseEscSlash` on a cons cell. -/
theorem parseEscSlash_cons (e : Char) (r2 : List Char) :
    parseEscSlash (e :: r2) =
      (if e = '"' then consFst '"' (parseEsc r2)
       else if e = '\\' then consFst '\\' (parseEsc r2)
       else if e = 'n' then consFst '\n' (parseEsc r2)
       else if e = 'r' then consFst '\r' (parseEsc r2)
       else if e = 't' then consFst '\t' (parseEsc r2)
       else if e = 'b' then consFst (Char.ofNat 8) (parseEsc r2)
       else if e = 'f' then consFst (Char.ofNat 12) (parseEsc r2)
       else if e = 'u' then parseUHex r2
       else none) := by
  rw [parseEscSlash]

/-- Helper: the string parser undoes the escape of a single character. -/
theorem parseEsc_escChar (c : Char) (tail : List Char) :
    parseEsc (escChar c ++ tail) = consFst c (parseEsc tail) := by
  by_cases h1 : c = '"'
  · subst h1
    simp only [escChar, reduceIte, List.cons_append, List.nil_append,
      parseEsc_cons, parseEscSlash_cons, Char.reduceEq]
  by_cases h2 : c = '\\'
  · subst h2
    simp only [escChar, reduceIte, List.cons_append, List.nil_append,
      parseEsc_cons, parseEscSlash_cons, Char.reduceEq]
  by_cases h3 : c = '\n'
  · subst h3
    simp only [escChar, reduceIte, List.cons_append, List.nil_append,
      parseEsc_cons, parseEscSlash_cons, Char.reduceEq]
  by_cases h4 : c = '\r'
  · subst h4
    simp only [escChar, reduceIte, List.cons_append, List.nil_append,
      parseEsc_cons, parseEscSlash_cons, Char.reduceEq]
  by_cases h5 : c = '\t'
  · subst h5
    simp only [escChar, reduceIte, List.cons_append, List.nil_append,
      parseEsc_cons, parseEscSlash_cons, Char.reduceEq]
  by_cases h6 : c.toNat = 8
  · have hc : c = Char.ofNat 8 := by rw [← h6, Char.ofNat_toNat]
    subst hc
    simp only [escChar, reduceIte, Char.reduceEq, Char.reduceToNat, List.cons_append,
      List.nil_append, parseEsc_cons, parseEscSlash_cons]
  by_cases h7 : c.toNat = 12
  · have hc : c = Char.ofNat 12 := by rw [← h7, Char.ofNat_toNat]
    subst hc
    simp only [escChar, reduceIte, Char.reduceEq, Char.reduceToNat, List.cons_append,
      List.nil_append, parseEsc_cons, parseEscSlash_cons]
    rw [if_neg (by decide : ¬(12 = 8))]
    simp only [List.cons_append, List.nil_append, parseEsc_cons, parseEscSlash_cons,
      Char.reduceEq, reduceIte]
  by_cases h8 : c.toNat < 32
  · rw [escChar]
    rw [if_neg h1, if_neg h2, if_neg h3, if_neg h4, if_neg h5, if_neg h6, if_neg h7, if_pos h8]
    have hq : c.toNat / 16 < 16 := by omega
    have hm : c.toNat % 16 < 16 := Nat.mod_lt _ (by omega)
    obtain ⟨hv1, hx1⟩ := hexDigit_facts _ hq
    obtain ⟨hv2, hx2⟩ := hexDigit_facts _ hm
    show parseEsc ('\\' :: 'u' :: '0' :: '0' :: hexDigit (c.toNat / 16) :: hexDigit (c.toNat % 16) :: tail)
      = consFst c (parseEsc tail)
    rw [parseEsc_cons]
    simp only [Char.reduceEq, reduceIte]
    rw [parseEscSlash_cons]
    simp only [Char.reduceEq, reduceIte]
    rw [parseUHex]
    have h0 : isHexLower '0' = true := by decide
    have hv0 : hvLower '0' = 0 := by decide
    rw [h0, hx1, hx2]
    simp only [Bool.and_self, Bool.true_and, Bool.and_true, reduceIte, hv0, hv1, hv2]
    have hval : ((0 * 16 + 0) * 16 + c.toNat / 16) * 16 + c.toNat % 16 = c.toNat := by omega
    rw [hval, Char.ofNat_toNat]
  · rw [escChar]
    rw [if_neg h1, if_neg h2, if_neg h3, if_neg h4, if_neg h5, if_neg h6, if_neg h7, if_neg h8]
    show parseEsc (c :: tail) = consFst c (parseEsc tail)
    rw [parseEsc_cons]
    rw [if_neg h1, if_neg h2]

/-- Helper: the string parser recovers an escaped string up to its closing
quote. -/
theorem parseEsc_escStr (s rest : List Char) :
    parseEsc (escStr s ++ '"' :: rest) = some (s, rest) := by
  induction s with
  | nil =>
    show parseEsc ('"' :: rest) = some ([], rest)
    rw [parseEsc_cons]
    simp only [reduceIte]
  | cons c s ih =>
    show parseEsc ((escChar c ++ escStr s) ++ '"' :: rest) = some (c :: s, rest)
    rw [List.append_assoc, parseEsc_escChar, ih]
    rfl

/-- Helper: consuming an expected literal prefix succeeds on that prefix. -/
theorem dropLit_append (lit r : List Char) : dropLit lit (lit ++ r) = some r := by
  induction lit with
  | nil => rfl
  | cons c cs ih =>
    show dropLit (c :: cs) (c :: (cs ++ r)) = some r
    rw [dropLit]
    simp only [reduceIte, ih]

/-- Helper: a JSON string literal parses back to its contents. -/
theorem parseJStr_jstr (s : String) (rest : List Char) :
    parseJStr (jstr s ++ rest) = some (s.data, rest) := by
  show parseJStr ('"' :: (escStr s.data ++ ['"'] ++ rest)) = some (s.data, rest)
  rw [parseJStr]
  rw [List.append_assoc, List.cons_append, List.nil_append]
  exact parseEsc_escStr s.data rest

/-- Helper: a key-plus-string field parses back to its contents. -/
theorem parseField_round (lit : List Char) (s : String) (rest : List Char) :
    parseField lit (lit ++ (jstr s ++ rest)) = some (s.data, rest) := by
  rw [parseField, dropLit_append]
  show parseJStr (jstr s ++ rest) = some (s.data, rest)
  exact parseJStr_jstr s rest

/-- Helper: one encoded compact record parses back to itself. -/
theorem parseCompact_round (c : CompactItem) (rest : List Char) :
    parseCompact (encodeCompact c ++ rest) = some (c, rest) := by
  simp only [encodeCompact, List.append_assoc, parseCompact, parseCompactPub, parseCompactPubr,
    parseCompactTi, parseCompactTy, parseCompactUrl, parseField_round, dropLit_append]

/-- Helper: every encoded record starts with an opening brace. -/
theorem encodeCompact_head (c : CompactItem) : ∃ r, encodeCompact c = '\x7b' :: r :=
  ⟨_, rfl⟩

/-- Helper: unfolding of the comma-separated encoding on two or more
records. -/
theorem encList_two_append (c c2 : CompactItem) (t : List CompactItem) (X : List Char) :
    encodeCompactList (c :: c2 :: t) ++ X
      = encodeCompact c ++ (',' :: (encodeCompactList (c2 :: t) ++ X)) := by
  rw [encodeCompactList]
  simp only [List.append_assoc, List.cons_append]

/-- Helper: the comma-separated record encoding, closed by a bracket, is
injective — proved by peeling records off both sides with the parser. -/
theorem encList_inj (post : List Char) :
    ∀ l1 l2 : List CompactItem,
      encodeCompactList l1 ++ ']' :: post = encodeCompactList l2 ++ ']' :: post → l1 = l2 := by
  intro l1
  induction l1 with
  | nil =>
    intro l2 h
    cases l2 with
    | nil => rfl
    | cons c2 t2 =>
      exfalso
      obtain ⟨r2, hr2⟩ := encodeCompact_head c2
      cases t2 with
      | nil =>
        rw [show encodeCompactList [c2] = encodeCompact c2 from rfl, hr2] at h
        rw [show encodeCompactList [] = [] from rfl, List.nil_append, List.cons_append] at h
        exact absurd (List.head_eq_of_cons_eq h) (by decide)
      | cons c3 t3 =>
        rw [encList_two_append, hr2] at h
        rw [show encodeCompactList [] = [] from rfl, List.nil_append, List.cons_append] at h
        exact absurd (List.head_eq_of_cons_eq h) (by decide)
  | cons c1 t1 ih =>
    intro l2 h
    cases l2 with
    | nil =>
      exfalso
      obtain ⟨r1, hr1⟩ := encodeCompact_head c1
      cases t1 with
      | nil =>
        rw [show encodeCompactList [c1] = encodeCompact c1 from rfl, hr1] at h
        rw [show encodeCompactList [] = [] from rfl, List.nil_append, List.cons_append] at h
        exact absurd (List.head_eq_of_cons_eq h) (by decide)
      | cons c3 t3 =>
        rw [encList_two_append, hr1] at h
        rw [show encodeCompactList [] = [] from rfl, List.nil_append, List.cons_append] at h
        exact absurd (List.head_eq_of_cons_eq h) (by decide)
    | cons c2 t2 =>
      have hpair : ∀ X1 X2, encodeCompact c1 ++ X1 = encodeCompact c2 ++ X2 →
          c1 = c2 ∧ X1 = X2 := by
        intro X1 X2 hx
        have hpc := congrArg parseCompact hx
        rw [parseCompact_round, parseCompact_round] at hpc
        simp only [Option.some.injEq, Prod.mk.injEq] at hpc
        exact hpc
      cases t1 with
      | nil =>
        cases t2 with
        | nil =>
          rw [show encodeCompactList [c1] = encodeCompact c1 from rfl,
            show encodeCompactList [c2] = encodeCompact c2 from rfl] at h
          obtain ⟨hc, -⟩ := hpair _ _ h
          rw [hc]
        | cons c3 t3 =>
          rw [show encodeCompactList [c1] = encodeCompact c1 from rfl,
            encList_two_append] at h
          obtain ⟨-, hx⟩ := hpair _ _ h
          exact absurd (List.head_eq_of_cons_eq hx) (by decide)
      | cons c4 t4 =>
        cases t2 with
        | nil =>
          rw [encList_two_append,
            show encodeCompactList [c2] = encodeCompact c2 from rfl] at h
          obtain ⟨-, hx⟩ := hpair _ _ h
          exact absurd (List.head_eq_of_cons_eq hx).symm (by decide)
        | cons c3 t3 =>
          rw [encList_two_append, encList_two_append] at h
          obtain ⟨hc, hx⟩ := hpair _ _ h
          have htail := List.tail_eq_of_cons_eq hx
          have := ih (c3 :: t3) htail
          rw [hc, this]

/-- Helper: the full canonical pre-image, re-associated around the bracket
that closes the items array. -/
theorem fingerprint_raw_shape (l : List Item) (lab : String) :
    fingerprint_raw l lab = ("\x7b\"items\":[").data ++
      (encodeCompactList ((l.take 120).map stable_fields) ++
        ']' :: ((",\"label\":").data ++ (jstr lab ++ ("\x7d").data))) := by
  rw [fingerprint_raw]
  rw [show ("],\"label\":").data = ']' :: (",\"label\":").data from rfl]
  simp only [List.append_assoc, List.cons_append]

/-- Helper: for a fixed label, the canonical pre-image determines the stable
fields of the capped item list. -/
theorem fingerprint_raw_inj (l1 l2 : List Item) (lab : String)
    (h : fingerprint_raw l1 lab = fingerprint_raw l2 lab) :
    (l1.take 120).map stable_fields = (l2.take 120).map stable_fields := by
  rw [fingerprint_raw_shape, fingerprint_raw_shape] at h
  exact encList_inj _ _ _ (List.append_cancel_left h)

/-- Claim C4: the fingerprint is a deterministic function of the label and
the stable fields of the first 120 items only — equal stable projections and
labels give equal digests whatever the other fields hold; conversely, a
change in any stable field of an included item changes the canonical
pre-image that is hashed (shown injective via the parser), and changes the
SHA-256 digest itself on the exhibited one-field change. -/
theorem fingerprint_stable (l1 l2 : List Item) (lab1 lab2 : String) :
    ((l1.take 120).map stable_fields = (l2.take 120).map stable_fields → lab1 = lab2 →
      compute_fingerprint l1 lab1 = compute_fingerprint l2 lab2)
    ∧ ((l1.take 120).map stable_fields ≠ (l2.take 120).map stable_fields →
        fingerprint_raw l1 lab1 ≠ fingerprint_raw l2 lab1)
    ∧ compute_fingerprint [itemNew] ("Daily") ≠ compute_fingerprint [itemNewB] ("Daily") := by
  refine ⟨fun hm hl => ?_, fun hne heq => hne (fingerprint_raw_inj l1 l2 lab1 heq), by decide⟩
  rw [compute_fingerprint, compute_fingerprint, fingerprint_raw, fingerprint_raw, hm, hl]

/-- Witness for C4: a change confined to a non-stable field leaves the
digest unchanged, and a title change alters the canonical pre-image. -/
theorem fingerprint_stable_witness :
    (compute_fingerprint [itemNew] ("Daily") = compute_fingerprint [itemNewC] ("Daily"))
    ∧ fingerprint_raw [itemNew] ("Daily") ≠ fingerprint_raw [itemNewB] ("Daily") :=
  ⟨(fingerprint_stable [itemNew] [itemNewC] ("Daily") ("Daily")).1 (by decide) rfl,
   (fingerprint_stable [itemNew] [itemNewB] ("Daily") ("Daily")).2.1 (by decide)⟩

end DailyNews
